import Mathlib

/-!
Verification of the weather-events suitability engine.

This file shallowly embeds the decision core of the repository
(`weather_events.rules.conditions`, `weather_events.rules.engine`,
`weather_events.recommendations.go_no_go`, `weather_events.recommendations.gear`,
`weather_events.recommendations.time_slots` and the data models they read)
into Lean and proves the specified properties about it.

Python floats are modelled as `ℚ`, `None`-able values as `Option`, and the
`TypeError`/`IndexError` exceptions that the condition comparator can raise
are modelled with an explicit `Except` layer so that the "caught and resolved
to non-passing" behaviour is visible.  String-valued summary/message fields
that only format numbers for display are omitted from the embedded records;
no claim refers to them.
-/

namespace WeatherEvents

/-- Exceptions that the Python comparison lambdas in `Condition._compare`
can raise (`TypeError` for mismatched operand types, `IndexError` for a
`between` value that is too short). -/
inductive PyErr where
  | typeError
  | indexError
deriving DecidableEq, Repr

/-- A scalar Python value as produced by `Condition._extract_value`:
a float, a bool, or a string (a weather-condition enum value). -/
inductive Atom where
  | num (q : ℚ)
  | bool (b : Bool)
  | str (s : String)
deriving DecidableEq, Repr

/-- A comparison value stored in `Condition.value`: a scalar or a list of
scalars (for the `in`/`not_in`/`between` operators). -/
inductive Value where
  | atom (a : Atom)
  | vlist (items : List Atom)
deriving DecidableEq, Repr

/-- Python treats `bool` as a number in arithmetic comparisons:
`True == 1`, `False == 0`. -/
def Atom.toRat : Atom → Option ℚ
  | .num q => some q
  | .bool b => some (if b then 1 else 0)
  | .str _ => none

/-- Lexicographic comparison of character lists by code point, as Python
compares strings. -/
def charListLt : List Char → List Char → Bool
  | [], [] => false
  | [], _ :: _ => true
  | _ :: _, [] => false
  | a :: as, b :: bs =>
    if a.val < b.val then true
    else if b.val < a.val then false
    else charListLt as bs

/-- Python `==` between two scalars: numeric if both sides are numeric
(with bools as 0/1), string equality for strings, `False` across
number/string with no exception. -/
def atomEq (a b : Atom) : Bool :=
  match a.toRat, b.toRat with
  | some x, some y => decide (x = y)
  | _, _ =>
    match a, b with
    | .str s, .str t => decide (s = t)
    | _, _ => false

/-- Python `==` of a scalar against an arbitrary comparison value
(a scalar never equals a list). -/
def pyEqVal (a : Atom) : Value → Bool
  | .atom b => atomEq a b
  | .vlist _ => false

/-- A Python ordering comparison (`<`, `<=`, `>`, `>=`) of two scalars:
numeric when both coerce to numbers, code-point lexicographic for two
strings, `TypeError` otherwise. -/
def atomOrd (fq : ℚ → ℚ → Bool) (fs : List Char → List Char → Bool)
    (a b : Atom) : Except PyErr Bool :=
  match a.toRat, b.toRat with
  | some x, some y => .ok (fq x y)
  | _, _ =>
    match a, b with
    | .str s, .str t => .ok (fs s.toList t.toList)
    | _, _ => .error .typeError

/-- A Python ordering comparison of a scalar against an arbitrary comparison
value; comparing a scalar against a list raises `TypeError`. -/
def atomOrdVal (fq : ℚ → ℚ → Bool) (fs : List Char → List Char → Bool)
    (a : Atom) : Value → Except PyErr Bool
  | .atom b => atomOrd fq fs a b
  | .vlist _ => .error .typeError

/-- Python subscription `e[i]`: list indexing, string indexing (yielding a
one-character string), `IndexError` past the end, `TypeError` on a
non-subscriptable scalar. -/
def indexVal : Value → ℕ → Except PyErr Atom
  | .vlist items, i =>
    match items[i]? with
    | some a => .ok a
    | none => .error .indexError
  | .atom (.str s), i =>
    match s.toList[i]? with
    | some c => .ok (.str (String.mk [c]))
    | none => .error .indexError
  | .atom _, _ => .error .typeError

/-- Does `pat` occur as a contiguous block at the head of `l`? -/
def seqStarts : List Char → List Char → Bool
  | [], _ => true
  | _ :: _, [] => false
  | a :: as, b :: bs => decide (a = b) && seqStarts as bs

/-- Does `pat` occur as a contiguous block anywhere in `l`?  (Python
substring containment `pat in l`.) -/
def seqContains (pat l : List Char) : Bool :=
  seqStarts pat l ||
    match l with
    | [] => false
    | _ :: rest => seqContains pat rest

/-- Python `a in e`: membership by `==` for a list, substring test for a
string (requiring `a` to be a string), `TypeError` otherwise. -/
def pyIn (a : Atom) : Value → Except PyErr Bool
  | .vlist items => .ok (items.any fun b => atomEq a b)
  | .atom (.str t) =>
    match a with
    | .str s => .ok (seqContains s.toList t.toList)
    | _ => .error .typeError
  | .atom _ => .error .typeError

/-- Python chained `e[0] <= a <= e[1]` with short-circuiting: `e[1]` is only
subscripted when the first comparison succeeds and holds. -/
def pyBetween (a : Atom) (e : Value) : Except PyErr Bool := do
  let e0 ← indexVal e 0
  let lo ← atomOrd (fun x y => decide (x ≤ y)) (fun s t => charListLt s t || decide (s = t)) e0 a
  if lo then do
    let e1 ← indexVal e 1
    atomOrd (fun x y => decide (x ≤ y)) (fun s t => charListLt s t || decide (s = t)) a e1
  else
    pure false

/-! ## Weather data model (`weather_events.models.weather`) -/

/-- Model of `WeatherCondition` enum (`models/weather.py`). -/
inductive WeatherCondition where
  | clear | partly_cloudy | cloudy | overcast | fog
  | light_rain | rain | heavy_rain | drizzle | thunderstorm
  | snow | light_snow | heavy_snow | sleet | hail
  | windy | unknown
deriving DecidableEq, Repr

/-- The `.value` string of a `WeatherCondition` member. -/
def WeatherCondition.toValue : WeatherCondition → String
  | .clear => "clear"
  | .partly_cloudy => "partly_cloudy"
  | .cloudy => "cloudy"
  | .overcast => "overcast"
  | .fog => "fog"
  | .light_rain => "light_rain"
  | .rain => "rain"
  | .heavy_rain => "heavy_rain"
  | .drizzle => "drizzle"
  | .thunderstorm => "thunderstorm"
  | .snow => "snow"
  | .light_snow => "light_snow"
  | .heavy_snow => "heavy_snow"
  | .sleet => "sleet"
  | .hail => "hail"
  | .windy => "windy"
  | .unknown => "unknown"

/-- Model of `CloudCover` (`models/weather.py`). -/
structure CloudCover where
  total_percent : ℚ
  low_percent : Option ℚ := none
  mid_percent : Option ℚ := none
  high_percent : Option ℚ := none
deriving DecidableEq, Repr

/-- Model of `Precipitation` (`models/weather.py`). -/
structure Precipitation where
  probability_percent : ℚ
  amount_mm : Option ℚ := none
deriving DecidableEq, Repr

/-- Model of `Wind` (`models/weather.py`). -/
structure Wind where
  speed_ms : ℚ
  gust_ms : Option ℚ := none
  direction_deg : Option ℚ := none
deriving DecidableEq, Repr

/-- Model of `AstronomicalData` (`models/weather.py`); only the fields the decision
core reads are embedded. -/
structure AstronomicalData where
  sun_altitude_deg : Option ℚ := none
  moon_altitude_deg : Option ℚ := none
  moon_illumination_percent : Option ℚ := none
deriving DecidableEq, Repr

/-- Model of `AstronomicalData.is_night`: sun below the horizon, `None` when the sun
altitude is unknown. -/
def AstronomicalData.is_night (a : AstronomicalData) : Option Bool :=
  a.sun_altitude_deg.map fun alt => decide (alt < 0)

/-- Model of `AstronomicalData.is_astronomical_night`: sun below -18°, `None` when the
sun altitude is unknown. -/
def AstronomicalData.is_astronomical_night (a : AstronomicalData) : Option Bool :=
  a.sun_altitude_deg.map fun alt => decide (alt < -18)

/-- Model of `HourlyForecast` (`models/weather.py`).  `time` is in hours (the
resolution at which the core manipulates timestamps). -/
structure HourlyForecast where
  time : ℚ
  condition : WeatherCondition := .unknown
  temperature_c : ℚ
  feels_like_c : Option ℚ := none
  dew_point_c : Option ℚ := none
  relative_humidity_percent : Option ℚ := none
  cloud_cover : Option CloudCover := none
  precipitation : Option Precipitation := none
  wind : Option Wind := none
  pressure_hpa : Option ℚ := none
  visibility_m : Option ℚ := none
  uv_index : Option ℚ := none
  astronomical : Option AstronomicalData := none
deriving DecidableEq, Repr

/-- Model of `Forecast` (`models/weather.py`); the core only reads `hourly`. -/
structure Forecast where
  hourly : List HourlyForecast := []
deriving DecidableEq, Repr

/-! ## Condition model (`weather_events.rules.conditions`) -/

/-- Model of `ConditionType` enum. -/
inductive ConditionType where
  | temperature | feels_like | dew_point
  | humidity
  | wind_speed | wind_gust | wind_direction
  | cloud_cover | cloud_cover_low | cloud_cover_high
  | precipitation_probability | precipitation_amount
  | visibility
  | uv_index
  | pressure
  | sun_altitude | moon_altitude | moon_illumination
  | is_night | is_astronomical_night
  | weather_condition
deriving DecidableEq, Repr

/-- Model of `ComparisonOperator` enum. -/
inductive ComparisonOperator where
  | lt | lte | gt | gte | eq | neq | inSet | notInSet | between
deriving DecidableEq, Repr

/-- The comparator lambda selected from the `comparisons` dispatch table in
`Condition._compare`, applied to a non-`None` actual value; errors are the
`TypeError`/`IndexError` exceptions the lambda can raise. -/
def pyCompareRaw : ComparisonOperator → Atom → Value → Except PyErr Bool
  | .lt, a, e => atomOrdVal (fun x y => decide (x < y)) charListLt a e
  | .lte, a, e =>
    atomOrdVal (fun x y => decide (x ≤ y)) (fun s t => charListLt s t || decide (s = t)) a e
  | .gt, a, e => atomOrdVal (fun x y => decide (y < x)) (fun s t => charListLt t s) a e
  | .gte, a, e =>
    atomOrdVal (fun x y => decide (y ≤ x)) (fun s t => charListLt t s || decide (s = t)) a e
  | .eq, a, e => .ok (pyEqVal a e)
  | .neq, a, e => .ok (!pyEqVal a e)
  | .inSet, a, e => pyIn a e
  | .notInSet, a, e => (pyIn a e).map (!·)
  | .between, a, e => pyBetween a e

/-- Model of `Condition._compare`: `None` never passes; the comparator runs inside a
`try`/`except (TypeError, IndexError)` that resolves to `False`. -/
def pyCompare (op : ComparisonOperator) (actual : Option Atom) (expected : Value) : Bool :=
  match actual with
  | none => false
  | some a =>
    match pyCompareRaw op a expected with
    | .ok b => b
    | .error _ => false

/-- Model of `Condition` (`rules/conditions.py`); the display-only `description`
field is omitted. -/
structure Condition where
  type : ConditionType
  operator : ComparisonOperator
  value : Value
  is_required : Bool := true
  weight : ℚ := 1
  severity_on_fail : ℚ := 5
deriving DecidableEq, Repr

/-- Model of `ConditionResult` (`rules/conditions.py`); the display-only `message`
field is omitted. -/
structure ConditionResult where
  condition_type : ConditionType
  passed : Bool
  actual_value : Option Atom
  expected_value : Value
  operator : ComparisonOperator
  severity : ℚ
deriving DecidableEq, Repr

/-- Model of `Condition._extract_value`: the dispatch table from condition type to
forecast accessor.  Note that the two precipitation extractors default to
`0` (not `None`) when the forecast has no precipitation sub-record. -/
def Condition.extractValue (c : Condition) (f : HourlyForecast) : Option Atom :=
  match c.type with
  | .temperature => some (.num f.temperature_c)
  | .feels_like => f.feels_like_c.map .num
  | .dew_point => f.dew_point_c.map .num
  | .humidity => f.relative_humidity_percent.map .num
  | .wind_speed => f.wind.map fun w => .num w.speed_ms
  | .wind_gust => f.wind.bind fun w => w.gust_ms.map .num
  | .wind_direction => f.wind.bind fun w => w.direction_deg.map .num
  | .cloud_cover => f.cloud_cover.map fun cc => .num cc.total_percent
  | .cloud_cover_low => f.cloud_cover.bind fun cc => cc.low_percent.map .num
  | .cloud_cover_high => f.cloud_cover.bind fun cc => cc.high_percent.map .num
  | .precipitation_probability =>
    some (.num (match f.precipitation with | some p => p.probability_percent | none => 0))
  | .precipitation_amount =>
    match f.precipitation with
    | some p => p.amount_mm.map .num
    | none => some (.num 0)
  | .visibility => f.visibility_m.map .num
  | .uv_index => f.uv_index.map .num
  | .pressure => f.pressure_hpa.map .num
  | .sun_altitude => f.astronomical.bind fun a => a.sun_altitude_deg.map .num
  | .moon_altitude => f.astronomical.bind fun a => a.moon_altitude_deg.map .num
  | .moon_illumination => f.astronomical.bind fun a => a.moon_illumination_percent.map .num
  | .is_night => f.astronomical.bind fun a => a.is_night.map .bool
  | .is_astronomical_night => f.astronomical.bind fun a => a.is_astronomical_night.map .bool
  | .weather_condition => some (.str f.condition.toValue)

/-- Model of `Condition.evaluate`: extract the actual value, compare, and report a
severity of `0` on pass and `severity_on_fail` on failure. -/
def Condition.evaluate (c : Condition) (f : HourlyForecast) : ConditionResult :=
  let actual := c.extractValue f
  let passed := pyCompare c.operator actual c.value
  { condition_type := c.type
    passed := passed
    actual_value := actual
    expected_value := c.value
    operator := c.operator
    severity := if passed then 0 else c.severity_on_fail }

/-! ## Activity model (`weather_events.models.activity`) -/

/-- Model of `TemperatureRange` constraints. -/
structure TemperatureRange where
  min_c : Option ℚ := none
  max_c : Option ℚ := none
  ideal_min_c : Option ℚ := none
  ideal_max_c : Option ℚ := none
deriving DecidableEq, Repr

/-- Model of `WindConstraints`. -/
structure WindConstraints where
  max_speed_ms : Option ℚ := none
  max_gust_ms : Option ℚ := none
  ideal_max_speed_ms : Option ℚ := none
deriving DecidableEq, Repr

/-- Model of `CloudConstraints`. -/
structure CloudConstraints where
  max_total_percent : Option ℚ := none
  max_high_percent : Option ℚ := none
  ideal_max_total_percent : Option ℚ := none
deriving DecidableEq, Repr

/-- Model of `PrecipitationConstraints`. -/
structure PrecipitationConstraints where
  max_probability_percent : Option ℚ := none
  allow_light_rain : Bool := false
  allow_snow : Bool := false
deriving DecidableEq, Repr

/-- Model of `SunConstraints`. -/
structure SunConstraints where
  min_altitude_deg : Option ℚ := none
  max_altitude_deg : Option ℚ := none
  require_below_horizon : Bool := false
  require_astronomical_twilight : Bool := false
deriving DecidableEq, Repr

/-- Model of `MoonConstraints`. -/
structure MoonConstraints where
  max_illumination_percent : Option ℚ := none
  require_below_horizon : Bool := false
deriving DecidableEq, Repr

/-- Model of `SeeingConstraints` (never consulted by the rule engine). -/
structure SeeingConstraints where
  max_arcsec : Option ℚ := none
  ideal_max_arcsec : Option ℚ := none
deriving DecidableEq, Repr

/-- Model of `TransparencyConstraints` (never consulted by the rule engine). -/
structure TransparencyConstraints where
  min_magnitude : Option ℚ := none
  ideal_min_magnitude : Option ℚ := none
deriving DecidableEq, Repr

/-- Model of `ActivityRequirements`. -/
structure ActivityRequirements where
  temperature : Option TemperatureRange := none
  wind : Option WindConstraints := none
  clouds : Option CloudConstraints := none
  precipitation : Option PrecipitationConstraints := none
  min_visibility_m : Option ℚ := none
  sun : Option SunConstraints := none
  moon : Option MoonConstraints := none
  seeing : Option SeeingConstraints := none
  transparency : Option TransparencyConstraints := none
  max_uv_index : Option ℚ := none
  require_daylight : Bool := false
  require_darkness : Bool := false
deriving DecidableEq, Repr

/-- Model of `Activity`; only the fields the decision core reads. -/
structure Activity where
  id : String
  name : String
  requirements : ActivityRequirements := {}
deriving DecidableEq, Repr

/-! ## Rule engine (`weather_events.rules.engine`) -/

/-- Model of `EvaluationResult` (`rules/engine.py`); the forecast back-reference is
omitted. -/
structure EvaluationResult where
  results : List ConditionResult := []
  score : ℚ := 100
  passed : Bool := true
  blocking_conditions : List ConditionResult := []
deriving DecidableEq, Repr

/-- The accumulation loop of `evaluate_conditions`: per-condition results,
the blocking (failed required) results, the total weight and the weighted
score, in source order. -/
def evalLoop (f : HourlyForecast) :
    List Condition → List ConditionResult × List ConditionResult × ℚ × ℚ
  | [] => ([], [], 0, 0)
  | c :: rest =>
    let r := c.evaluate f
    let (results, blocking, tw, ws) := evalLoop f rest
    ( r :: results,
      (if !r.passed && c.is_required then r :: blocking else blocking),
      c.weight + tw,
      (if r.passed then c.weight * 100 else c.weight * max 0 (100 - r.severity * 10)) + ws )

/-- Model of `evaluate_conditions` (`rules/engine.py`, lines 52-96). -/
def evaluate_conditions (f : HourlyForecast) (conditions : List Condition) :
    EvaluationResult :=
  let (results, blocking, total_weight, weighted_score) := evalLoop f conditions
  { results := results
    score := if 0 < total_weight then weighted_score / total_weight else 100
    passed := blocking.isEmpty
    blocking_conditions := blocking }

/-- The temperature block of `RuleEngine.requirements_to_conditions`. -/
def temperatureConditions : Option TemperatureRange → List Condition
  | none => []
  | some temp =>
    (match temp.min_c with
     | none => []
     | some v => [{ type := .temperature, operator := .gte, value := .atom (.num v),
                    is_required := true, severity_on_fail := 8 }]) ++
    (match temp.max_c with
     | none => []
     | some v => [{ type := .temperature, operator := .lte, value := .atom (.num v),
                    is_required := true, severity_on_fail := 8 }]) ++
    (match temp.ideal_min_c with
     | none => []
     | some v => [{ type := .temperature, operator := .gte, value := .atom (.num v),
                    is_required := false, severity_on_fail := 2, weight := 1/2 }]) ++
    (match temp.ideal_max_c with
     | none => []
     | some v => [{ type := .temperature, operator := .lte, value := .atom (.num v),
                    is_required := false, severity_on_fail := 2, weight := 1/2 }])

/-- The wind block of `RuleEngine.requirements_to_conditions`. -/
def windConditions : Option WindConstraints → List Condition
  | none => []
  | some wind =>
    (match wind.max_speed_ms with
     | none => []
     | some v => [{ type := .wind_speed, operator := .lte, value := .atom (.num v),
                    is_required := true, severity_on_fail := 7 }]) ++
    (match wind.max_gust_ms with
     | none => []
     | some v => [{ type := .wind_gust, operator := .lte, value := .atom (.num v),
                    is_required := true, severity_on_fail := 7 }]) ++
    (match wind.ideal_max_speed_ms with
     | none => []
     | some v => [{ type := .wind_speed, operator := .lte, value := .atom (.num v),
                    is_required := false, severity_on_fail := 2, weight := 1/2 }])

/-- The cloud block of `RuleEngine.requirements_to_conditions`. -/
def cloudConditions : Option CloudConstraints → List Condition
  | none => []
  | some clouds =>
    (match clouds.max_total_percent with
     | none => []
     | some v => [{ type := .cloud_cover, operator := .lte, value := .atom (.num v),
                    is_required := true, severity_on_fail := 8 }]) ++
    (match clouds.ideal_max_total_percent with
     | none => []
     | some v => [{ type := .cloud_cover, operator := .lte, value := .atom (.num v),
                    is_required := false, severity_on_fail := 2, weight := 1/2 }])

/-- The precipitation block of `RuleEngine.requirements_to_conditions`. -/
def precipitationConditions : Option PrecipitationConstraints → List Condition
  | none => []
  | some precip =>
    match precip.max_probability_percent with
    | none => []
    | some v => [{ type := .precipitation_probability, operator := .lte,
                   value := .atom (.num v), is_required := true, severity_on_fail := 6 }]

/-- The visibility block of `RuleEngine.requirements_to_conditions`. -/
def visibilityConditions : Option ℚ → List Condition
  | none => []
  | some v => [{ type := .visibility, operator := .gte, value := .atom (.num v),
                 is_required := true, severity_on_fail := 5 }]

/-- The sun block of `RuleEngine.requirements_to_conditions`. -/
def sunConditions : Option SunConstraints → List Condition
  | none => []
  | some sun =>
    (if sun.require_below_horizon then
       [{ type := .sun_altitude, operator := .lt, value := .atom (.num 0),
          is_required := true, severity_on_fail := 10 }]
     else []) ++
    (if sun.require_astronomical_twilight then
       [{ type := .sun_altitude, operator := .lt, value := .atom (.num (-18)),
          is_required := true, severity_on_fail := 10 }]
     else []) ++
    (match sun.min_altitude_deg with
     | none => []
     | some v => [{ type := .sun_altitude, operator := .gte, value := .atom (.num v),
                    is_required := true, severity_on_fail := 10 }]) ++
    (match sun.max_altitude_deg with
     | none => []
     | some v => [{ type := .sun_altitude, operator := .lte, value := .atom (.num v),
                    is_required := true, severity_on_fail := 10 }])

/-- The moon block of `RuleEngine.requirements_to_conditions`. -/
def moonConditions : Option MoonConstraints → List Condition
  | none => []
  | some moon =>
    (match moon.max_illumination_percent with
     | none => []
     | some v => [{ type := .moon_illumination, operator := .lte, value := .atom (.num v),
                    is_required := false, severity_on_fail := 3, weight := 7/10 }]) ++
    (if moon.require_below_horizon then
       [{ type := .moon_altitude, operator := .lt, value := .atom (.num 0),
          is_required := false, severity_on_fail := 2, weight := 1/2 }]
     else [])

/-- The UV block of `RuleEngine.requirements_to_conditions`. -/
def uvConditions : Option ℚ → List Condition
  | none => []
  | some v => [{ type := .uv_index, operator := .lte, value := .atom (.num v),
                 is_required := true, severity_on_fail := 6 }]

/-- Model of `RuleEngine.requirements_to_conditions` (`rules/engine.py`,
lines 124-369): the declarative translation, block by block in source
order. -/
def requirements_to_conditions (r : ActivityRequirements) : List Condition :=
  temperatureConditions r.temperature ++
  windConditions r.wind ++
  cloudConditions r.clouds ++
  precipitationConditions r.precipitation ++
  visibilityConditions r.min_visibility_m ++
  sunConditions r.sun ++
  moonConditions r.moon ++
  uvConditions r.max_uv_index

/-- Model of `RuleEngine`: the per-activity condition cache is its only state. -/
structure RuleEngine where
  condition_cache : List (String × List Condition) := []

/-- A freshly constructed `RuleEngine()` with an empty cache. -/
def RuleEngine.new : RuleEngine := {}

/-- Model of `RuleEngine.get_conditions_for_activity`: cached conditions when
present, otherwise compiled from the requirements. -/
def RuleEngine.get_conditions_for_activity (e : RuleEngine) (a : Activity) :
    List Condition :=
  match e.condition_cache.lookup a.id with
  | some conds => conds
  | none => requirements_to_conditions a.requirements

/-- Model of `RuleEngine.evaluate_forecast`. -/
def RuleEngine.evaluate_forecast (e : RuleEngine) (f : HourlyForecast) (a : Activity) :
    EvaluationResult :=
  evaluate_conditions f (e.get_conditions_for_activity a)

/-- Model of `RuleEngine.evaluate_forecasts`. -/
def RuleEngine.evaluate_forecasts (e : RuleEngine) (fs : List HourlyForecast)
    (a : Activity) : List EvaluationResult :=
  fs.map fun f => e.evaluate_forecast f a

/-! ## Go/No-Go weighted evaluator (`weather_events.recommendations.go_no_go`) -/

/-- Model of `Severity` enum (`models/recommendation.py`). -/
inductive Severity where
  | info | good | caution | warning | critical
deriving DecidableEq, Repr

/-- Model of `DecisionWeight` enum (`go_no_go.py`, lines 34-41). -/
inductive DecisionWeight where
  | critical | high | medium | low | minimal
deriving DecidableEq, Repr

/-- The integer `.value` of a `DecisionWeight` member
(CRITICAL=10, HIGH=7, MEDIUM=5, LOW=3, MINIMAL=1). -/
def DecisionWeight.value : DecisionWeight → ℚ
  | .critical => 10
  | .high => 7
  | .medium => 5
  | .low => 3
  | .minimal => 1

/-- Model of `WeightedFactor` (`go_no_go.py`); the display-only `unit` field is
omitted.  `threshold_type` is the raw string, as in the source. -/
structure WeightedFactor where
  name : String
  display_name : String
  weight : DecisionWeight
  threshold : Option ℚ := none
  threshold_type : String := "max"
  range_min : Option ℚ := none
  range_max : Option ℚ := none
  is_blocking : Bool := false
deriving DecidableEq, Repr

/-- Model of `WeightedFactor.evaluate`: a `None` value passes with INFO severity;
otherwise the threshold test runs and a failure is classified CRITICAL /
WARNING / CAUTION. -/
def WeightedFactor.evaluate (factor : WeightedFactor) (value : Option ℚ) :
    Bool × Severity :=
  match value with
  | none => (true, .info)
  | some v =>
    let passed :=
      if factor.threshold_type = "max" && factor.threshold.isSome then
        match factor.threshold with
        | some t => decide (v ≤ t)
        | none => true
      else if factor.threshold_type = "min" && factor.threshold.isSome then
        match factor.threshold with
        | some t => decide (t ≤ v)
        | none => true
      else if factor.threshold_type = "range" then
        (match factor.range_min with | some lo => decide (lo ≤ v) | none => true) &&
        (match factor.range_max with | some hi => decide (v ≤ hi) | none => true)
      else true
    if passed then (true, .good)
    else if factor.is_blocking then (false, .critical)
    else if factor.weight = .critical then (false, .critical)
    else if factor.weight = .high then (false, .warning)
    else (false, .caution)

/-- Model of `GoNoGoDecision` (`models/recommendation.py`); only the fields the
claims consult (decision string, score, blocking factor names, confidence)
are embedded. -/
structure GoNoGoDecision where
  decision : String
  confidence : ℚ
  score : ℚ
  blocking_factors : List String
deriving DecidableEq, Repr

/-- Model of `GoNoGoEvaluator._extract_values` (the base class version): an
association list mirroring the Python dict build-up; note the
`precipitation_probability` default of `0` for a missing sub-record. -/
def extractValuesBase (f : HourlyForecast) : List (String × Option ℚ) :=
  [ ("temperature", some f.temperature_c),
    ("feels_like", f.feels_like_c),
    ("humidity", f.relative_humidity_percent),
    ("wind_speed", f.wind.map (·.speed_ms)),
    ("wind_gust", f.wind.bind (·.gust_ms)),
    ("cloud_cover", f.cloud_cover.map (·.total_percent)),
    ("precipitation_probability",
      some (match f.precipitation with | some p => p.probability_percent | none => 0)),
    ("visibility", f.visibility_m),
    ("uv_index", f.uv_index) ]

/-- Python `values.get(name)`: `None` both for a missing key and for a key
mapped to `None`. -/
def valuesGet (values : List (String × Option ℚ)) (name : String) : Option ℚ :=
  match values.lookup name with
  | some v => v
  | none => none

/-- The factor loop of `GoNoGoEvaluator.evaluate`: total weight, weighted
score, and the blocking-factor display names, in source order. -/
def goNoGoLoop (values : List (String × Option ℚ)) :
    List WeightedFactor → ℚ × ℚ × List String
  | [] => (0, 0, [])
  | factor :: rest =>
    let value := valuesGet values factor.name
    let passed := (factor.evaluate value).1
    let prev := goNoGoLoop values rest
    ( factor.weight.value + prev.1,
      (if passed then factor.weight.value * 100 else 0) + prev.2.1,
      (if !passed && (factor.is_blocking || factor.weight = .critical)
       then factor.display_name :: prev.2.2 else prev.2.2) )

/-- Model of `GoNoGoEvaluator.evaluate` (`go_no_go.py`, lines 137-211), parameterised
by the extracted values so the subclasses (which only override
`_extract_values`) share it. -/
def goNoGoEvaluateWith (values : List (String × Option ℚ))
    (factors : List WeightedFactor) : GoNoGoDecision :=
  let (total_weight, weighted_score, blocking_factors) := goNoGoLoop values factors
  let score := if 0 < total_weight then weighted_score / total_weight else 0
  let decision :=
    if !blocking_factors.isEmpty then "NO_GO"
    else if 70 ≤ score then "GO"
    else if 50 ≤ score then "MARGINAL"
    else "NO_GO"
  { decision := decision
    confidence := 4/5
    score := score
    blocking_factors := blocking_factors }

/-- Model of `GoNoGoEvaluator.evaluate` for the base class. -/
def GoNoGoEvaluator.evaluate (factors : List WeightedFactor) (f : HourlyForecast) :
    GoNoGoDecision :=
  goNoGoEvaluateWith (extractValuesBase f) factors

/-- Model of `AstronomyGoNoGoEvaluator._extract_values`: the base values plus moon
illumination and sun altitude. -/
def extractValuesAstronomy (f : HourlyForecast) : List (String × Option ℚ) :=
  extractValuesBase f ++
    [ ("moon_illumination", f.astronomical.bind (·.moon_illumination_percent)),
      ("sun_altitude", f.astronomical.bind (·.sun_altitude_deg)) ]

/-- The cloud-cover factor of `AstronomyGoNoGoEvaluator.__init__`. -/
def astroCloudFactor (max_cloud_cover : ℚ) : WeightedFactor :=
  { name := "cloud_cover", display_name := "Cloud Cover", weight := .critical,
    threshold := some max_cloud_cover, threshold_type := "max", is_blocking := true }

/-- The precipitation factor of `AstronomyGoNoGoEvaluator.__init__`. -/
def astroPrecipFactor (max_precipitation_prob : ℚ) : WeightedFactor :=
  { name := "precipitation_probability", display_name := "Precipitation Chance",
    weight := .critical, threshold := some max_precipitation_prob,
    threshold_type := "max", is_blocking := true }

/-- The wind-speed factor of `AstronomyGoNoGoEvaluator.__init__`. -/
def astroWindFactor (max_wind_speed : ℚ) : WeightedFactor :=
  { name := "wind_speed", display_name := "Wind Speed", weight := .high,
    threshold := some max_wind_speed, threshold_type := "max" }

/-- The wind-gust factor of `AstronomyGoNoGoEvaluator.__init__`. -/
def astroGustFactor (max_wind_gust : ℚ) : WeightedFactor :=
  { name := "wind_gust", display_name := "Wind Gusts", weight := .medium,
    threshold := some max_wind_gust, threshold_type := "max" }

/-- The temperature factor of `AstronomyGoNoGoEvaluator.__init__`. -/
def astroTempFactor (min_temperature : ℚ) : WeightedFactor :=
  { name := "temperature", display_name := "Temperature", weight := .medium,
    threshold := some min_temperature, threshold_type := "min" }

/-- The optional moon-illumination factor of
`AstronomyGoNoGoEvaluator.__init__`. -/
def astroMoonFactor (max_moon_illumination : ℚ) : WeightedFactor :=
  { name := "moon_illumination", display_name := "Moon Illumination",
    weight := .low, threshold := some max_moon_illumination, threshold_type := "max" }

/-- The factor list built by `AstronomyGoNoGoEvaluator.__init__`
(`go_no_go.py`, lines 226-302), with the constructor's defaults. -/
def astronomyFactors (max_cloud_cover : ℚ := 30) (max_precipitation_prob : ℚ := 20)
    (max_wind_speed : ℚ := 8) (max_wind_gust : ℚ := 12) (min_temperature : ℚ := -10)
    (max_moon_illumination : Option ℚ := none) : List WeightedFactor :=
  [ astroCloudFactor max_cloud_cover,
    astroPrecipFactor max_precipitation_prob,
    astroWindFactor max_wind_speed,
    astroGustFactor max_wind_gust,
    astroTempFactor min_temperature ] ++
  (match max_moon_illumination with
   | none => []
   | some m => [astroMoonFactor m])

/-- Model of `AstronomyGoNoGoEvaluator(...).evaluate(forecast)`. -/
def AstronomyGoNoGoEvaluator.evaluate (f : HourlyForecast) (max_cloud_cover : ℚ := 30)
    (max_precipitation_prob : ℚ := 20) (max_wind_speed : ℚ := 8) (max_wind_gust : ℚ := 12)
    (min_temperature : ℚ := -10) (max_moon_illumination : Option ℚ := none) :
    GoNoGoDecision :=
  goNoGoEvaluateWith (extractValuesAstronomy f)
    (astronomyFactors max_cloud_cover max_precipitation_prob max_wind_speed
      max_wind_gust min_temperature max_moon_illumination)

/-! ## Gear recommendation engine (`weather_events.recommendations.gear`) -/

/-- Model of `GearItem` (`models/recommendation.py`); display-only fields omitted. -/
structure GearItem where
  name : String
  category : String
  priority : ℤ := 1
deriving DecidableEq, Repr

/-- Model of `GearRule` (`gear.py`); the display-only `description` is omitted. -/
structure GearRule where
  item : GearItem
  min_temp_c : Option ℚ := none
  max_temp_c : Option ℚ := none
  min_feels_like_c : Option ℚ := none
  max_feels_like_c : Option ℚ := none
  min_wind_ms : Option ℚ := none
  max_precipitation_percent : Option ℚ := none
  requires_rain : Bool := false
  requires_night : Bool := false
  priority : ℤ := 5
  exclusive : Bool := true
deriving DecidableEq, Repr

/-- Model of `GearRule.matches` (`gear.py`, lines 96-144).  Note the Python
`forecast.feels_like_c or temp`: a missing *or zero* feels-like falls back
to the actual temperature. -/
def GearRule.matches (r : GearRule) (forecast : HourlyForecast) : Bool :=
  let temp := forecast.temperature_c
  let feels_like :=
    match forecast.feels_like_c with
    | some v => if v = 0 then temp else v
    | none => temp
  let wind_speed := match forecast.wind with | some w => w.speed_ms | none => 0
  let precip_prob :=
    match forecast.precipitation with | some p => p.probability_percent | none => 0
  if (match r.min_temp_c with | some m => decide (temp < m) | none => false) then false
  else if (match r.max_temp_c with | some m => decide (m < temp) | none => false) then false
  else if (match r.min_feels_like_c with
           | some m => decide (feels_like < m) | none => false) then false
  else if (match r.max_feels_like_c with
           | some m => decide (m < feels_like) | none => false) then false
  else if (match r.min_wind_ms with
           | some m => decide (wind_speed < m) | none => false) then false
  else if (match r.max_precipitation_percent with
           | some m => decide (m < precip_prob) | none => false) then false
  else if r.requires_rain && decide (precip_prob < 30) then false
  else if r.requires_night &&
          (match forecast.astronomical with
           | some a => a.is_night = some false
           | none => false) then false
  else true

/-- Stable insertion of a rule into a priority-ascending list (the rule goes
after every earlier rule of equal priority, as Python's stable sort
keeps it). -/
def insertByPriority (r : GearRule) : List GearRule → List GearRule
  | [] => [r]
  | s :: rest =>
    if r.priority ≤ s.priority then r :: s :: rest else s :: insertByPriority r rest

/-- Model of `matching_rules.sort(key=lambda r: r.priority)`: stable ascending sort
by priority. -/
def sortByPriority : List GearRule → List GearRule
  | [] => []
  | r :: rest => insertByPriority r (sortByPriority rest)

/-- The `used_categories.add` step (Python set semantics on a list model). -/
def addCategory (used : List String) (cat : String) : List String :=
  if used.contains cat then used else cat :: used

/-- The greedy selection loop of `GearRecommender.recommend`: an exclusive
rule is skipped when its category is already used; every selected rule
(exclusive or not) marks its category as used. -/
def selectGear (used : List String) : List GearRule → List GearItem
  | [] => []
  | rule :: rest =>
    if rule.exclusive && used.contains rule.item.category then
      selectGear used rest
    else
      rule.item :: selectGear (addCategory used rule.item.category) rest

/-- Model of `GearRecommendation` (`models/recommendation.py`); only the selected
item list is embedded. -/
structure GearRecommendation where
  items : List GearItem
deriving DecidableEq, Repr

/-- Model of `GearRecommender.recommend` (`gear.py`, lines 166-231): filter the
matching rules, sort ascending by priority, then apply the greedy
exclusivity pass. -/
def GearRecommender.recommend (rules : List GearRule) (forecast : HourlyForecast) :
    GearRecommendation :=
  let matching_rules := rules.filter fun r => r.matches forecast
  let sorted_rules := sortByPriority matching_rules
  { items := selectGear [] sorted_rules }

/-! ## Time slot finder (`weather_events.recommendations.time_slots`) -/

/-- Model of `TimeSlot` (`models/recommendation.py`); times in hours, summary-only
fields omitted. -/
structure TimeSlot where
  start : ℚ
  stop : ℚ
  score : ℚ
  is_optimal : Bool := false
deriving DecidableEq, Repr

/-- Model of `TimeSlotRecommendation`; only the fields the claims consult. -/
structure TimeSlotRecommendation where
  slots : List TimeSlot := []
  optimal_slot : Option TimeSlot := none
  no_suitable_slots : Bool := false
deriving DecidableEq, Repr

/-- Python `int(...)` on a rational: truncation toward zero. -/
def pyInt (q : ℚ) : ℤ :=
  if 0 ≤ q then ⌊q⌋ else -⌊-q⌋

/-- One forecast hour paired with its rule-engine evaluation. -/
abbrev HourEval := HourlyForecast × EvaluationResult

theorem dropWhile_length_le {α : Type} (p : α → Bool) :
    ∀ l : List α, (l.dropWhile p).length ≤ l.length := by
  intro l
  induction l with
  | nil => simp
  | cons a t ih =>
    rw [List.dropWhile_cons]
    split
    · exact Nat.le_succ_of_le ih
    · exact Nat.le_refl _

/-- The sliding-window scan of `TimeSlotFinder._find_contiguous_slots`:
skip hours failing the entry test, then extend a window while the test
keeps holding, emit the window, and resume after it. -/
def contiguousRuns (p : HourEval → Bool) : List HourEval → List (List HourEval)
  | [] => []
  | x :: rest =>
    if p x then
      (x :: rest.takeWhile p) :: contiguousRuns p (rest.dropWhile p)
    else
      contiguousRuns p rest
termination_by xs => xs.length
decreasing_by
  · exact Nat.lt_succ_of_le (dropWhile_length_le p rest)
  · simp

/-- Model of `TimeSlotFinder._find_contiguous_slots` (`time_slots.py`, lines
160-204): the entry/extension test is `passed` only when `require_passing`
is set, and a window is kept when its hour count reaches
`int(min_duration in hours)`. -/
def findContiguousSlots (pairs : List HourEval) (min_duration : ℚ)
    (require_passing : Bool) : List (List HourEval) :=
  let min_hours := pyInt min_duration
  let p : HourEval → Bool := fun he => !require_passing || he.2.passed
  (contiguousRuns p pairs).filter fun run => decide (min_hours ≤ (run.length : ℤ))

/-- Model of `TimeSlotFinder._score_candidates` for a single candidate window
(`time_slots.py`, lines 215-291, scoring part): average condition score
times a duration factor, clamped to [0, 100]. -/
def scoreCandidate (preferred_hours : ℚ) : List HourEval → TimeSlot
  | [] => { start := 0, stop := 0, score := 0 }
  | x :: rest =>
    let run := x :: rest
    let start_time := x.1.time
    let end_time := (run.getLast (List.cons_ne_nil x rest)).1.time + 1
    let base_score := (run.map fun he => he.2.score).sum / (run.length : ℚ)
    let duration_hours := end_time - start_time
    let duration_factor :=
      if preferred_hours ≤ duration_hours then
        min 1 (preferred_hours / duration_hours) * (11/10)
      else
        duration_hours / preferred_hours
    let final_score := base_score * duration_factor
    { start := start_time, stop := end_time, score := min 100 (max 0 final_score) }

/-- Stable insertion of a slot into a score-descending list (a new slot goes
after every earlier slot of equal score, as Python's stable
`sort(reverse=True)` keeps it). -/
def insertByScoreDesc (s : TimeSlot) : List TimeSlot → List TimeSlot
  | [] => [s]
  | t :: rest =>
    if t.score < s.score then s :: t :: rest else t :: insertByScoreDesc s rest

/-- Model of `scored_slots.sort(key=lambda s: s.score, reverse=True)`: stable
descending sort by score. -/
def sortByScoreDesc : List TimeSlot → List TimeSlot
  | [] => []
  | s :: rest => insertByScoreDesc s (sortByScoreDesc rest)

/-- Model of `top_slots[0].is_optimal = True`. -/
def markFirstOptimal : List TimeSlot → List TimeSlot
  | [] => []
  | s :: rest => { s with is_optimal := true } :: rest

/-- Model of `TimeSlotFinder.find_slots` (`time_slots.py`, lines 89-158), with the
rule-engine evaluation of each hour inlined as a `map`. -/
def find_slots (forecast : Forecast) (activity : Activity)
    (min_duration : ℚ := 1/2) (preferred_duration : ℚ := 1)
    (max_slots : ℕ := 5) (require_passing : Bool := true) :
    TimeSlotRecommendation :=
  if forecast.hourly.isEmpty then
    { no_suitable_slots := true }
  else
    let pairs := forecast.hourly.map fun h =>
      (h, RuleEngine.new.evaluate_forecast h activity)
    let candidates := findContiguousSlots pairs min_duration require_passing
    if candidates.isEmpty then
      { no_suitable_slots := true }
    else
      let scored_slots := candidates.map (scoreCandidate preferred_duration)
      let sorted_slots := sortByScoreDesc scored_slots
      let top_slots := markFirstOptimal (sorted_slots.take max_slots)
      { slots := top_slots
        optimal_slot := top_slots.head?
        no_suitable_slots := false }

/-! ## Scoring characterisation of `evaluate_conditions` -/

/-- The sum of the condition weights (the denominator of the weighted
partial-credit formula). -/
def totalWeight (conditions : List Condition) : ℚ :=
  (conditions.map (·.weight)).sum

/-- The weighted partial-credit numerator: `weight * 100` per passing
condition, `weight * max 0 (100 - severity_on_fail * 10)` per failing
condition. -/
def weightedNumerator (f : HourlyForecast) (conditions : List Condition) : ℚ :=
  (conditions.map fun c =>
    if (c.evaluate f).passed then c.weight * 100
    else c.weight * max 0 (100 - c.severity_on_fail * 10)).sum

theorem evalLoop_totalWeight (f : HourlyForecast) :
    ∀ conditions : List Condition, (evalLoop f conditions).2.2.1 = totalWeight conditions := by
  intro conditions
  induction conditions with
  | nil => simp [evalLoop, totalWeight]
  | cons c rest ih => simp [evalLoop, totalWeight] at ih ⊢; rw [ih]

theorem evalLoop_weightedNumerator (f : HourlyForecast) :
    ∀ conditions : List Condition,
      (evalLoop f conditions).2.2.2 = weightedNumerator f conditions := by
  intro conditions
  induction conditions with
  | nil => simp [evalLoop, weightedNumerator]
  | cons c rest ih =>
    simp only [evalLoop, weightedNumerator, List.map_cons, List.sum_cons] at ih ⊢
    rw [ih]
    by_cases hp : (c.evaluate f).passed
    · simp [hp]
    · have hsev : (c.evaluate f).severity = c.severity_on_fail := by
        simp [Condition.evaluate] at hp ⊢
        simp [hp]
      simp [hp, hsev]

theorem evaluate_conditions_score (f : HourlyForecast) (conditions : List Condition) :
    (evaluate_conditions f conditions).score =
      if 0 < totalWeight conditions then
        weightedNumerator f conditions / totalWeight conditions
      else 100 := by
  simp [evaluate_conditions, evalLoop_totalWeight, evalLoop_weightedNumerator]

theorem evalLoop_blocking_nil_iff (f : HourlyForecast) :
    ∀ conditions : List Condition,
      (evalLoop f conditions).2.1 = [] ↔
        ∀ c ∈ conditions, c.is_required = true → (c.evaluate f).passed = true := by
  intro conditions
  induction conditions with
  | nil => simp [evalLoop]
  | cons c rest ih =>
    simp only [evalLoop, List.mem_cons]
    by_cases hp : (c.evaluate f).passed = true
    · simp only [hp]
      simp only [Bool.not_true, Bool.false_and, Bool.false_eq_true, if_false]
      rw [ih]
      constructor
      · intro h x hx
        rcases hx with rfl | hx
        · intro _; exact hp
        · exact h x hx
      · intro h x hx
        exact h x (Or.inr hx)
    · have hp' : (c.evaluate f).passed = false := by
        cases hhh : (c.evaluate f).passed
        · rfl
        · exact absurd hhh hp
      by_cases hreq : c.is_required = true
      · simp only [hp', hreq]
        simp only [Bool.not_false, Bool.true_and, if_true]
        constructor
        · intro h; cases h
        · intro h
          have := h c (Or.inl rfl) hreq
          rw [hp'] at this
          cases this
      · have hreq' : c.is_required = false := by
          cases hhh : c.is_required
          · rfl
          · exact absurd hhh hreq
        simp only [hp', hreq']
        simp only [Bool.and_false, Bool.false_eq_true, if_false]
        rw [ih]
        constructor
        · intro h x hx
          rcases hx with rfl | hx
          · intro habs; rw [habs] at hreq'; cases hreq'
          · exact h x hx
        · intro h x hx
          exact h x (Or.inr hx)

/-- C1: For every forecast and every non-empty condition list whose
total weight is positive (the weights are non-negative by the model's field
constraint, so a non-empty list of genuinely weighted conditions always has
positive total weight), the score computed by `evaluate_conditions` is the
weighted partial-credit numerator divided by the sum of the weights; and
`RuleEngine.evaluate_forecast` on a fresh engine scores by the same formula
through the conditions compiled from the activity's requirements. -/
theorem evaluate_conditions_weighted_partial_credit (f : HourlyForecast)
    (conditions : List Condition) (_hne : conditions ≠ [])
    (hw : 0 < totalWeight conditions) :
    (evaluate_conditions f conditions).score =
      weightedNumerator f conditions / totalWeight conditions ∧
    ∀ a : Activity, requirements_to_conditions a.requirements = conditions →
      (RuleEngine.new.evaluate_forecast f a).score =
        weightedNumerator f conditions / totalWeight conditions := by
  constructor
  · rw [evaluate_conditions_score, if_pos hw]
  · intro a ha
    have : RuleEngine.new.evaluate_forecast f a = evaluate_conditions f conditions := by
      simp [RuleEngine.evaluate_forecast, RuleEngine.get_conditions_for_activity,
        RuleEngine.new, List.lookup, ha]
    rw [this, evaluate_conditions_score, if_pos hw]

/-- A forecast hour at 3 °C with no optional sub-records. -/
def sampleColdForecast : HourlyForecast := { time := 0, temperature_c := 3 }

/-- A required temperature-at-least-5 °C condition as
`requirements_to_conditions` builds it. -/
def sampleTempCondition : Condition :=
  { type := .temperature, operator := .gte, value := .atom (.num 5),
    is_required := true, severity_on_fail := 8 }

/-- Witness for C1: concrete evaluation at a failing required condition,
where the partial-credit formula gives `max 0 (100 - 80) = 20`. -/
theorem evaluate_conditions_weighted_partial_credit_witness :
    [sampleTempCondition] ≠ [] ∧ 0 < totalWeight [sampleTempCondition] ∧
      (evaluate_conditions sampleColdForecast [sampleTempCondition]).score =
        weightedNumerator sampleColdForecast [sampleTempCondition] /
          totalWeight [sampleTempCondition] :=
  ⟨by simp, by norm_num [totalWeight, sampleTempCondition],
    (evaluate_conditions_weighted_partial_credit sampleColdForecast [sampleTempCondition]
      (by simp) (by norm_num [totalWeight, sampleTempCondition])).1⟩

/-- C5: `evaluate_conditions` (hence `evaluate_forecast`) reports
`passed = false` exactly when some required condition evaluated to
not-passed; optional failures alone leave `passed = true`. -/
theorem evaluate_conditions_passed_iff_no_required_failure (f : HourlyForecast)
    (conditions : List Condition) :
    (evaluate_conditions f conditions).passed = false ↔
      ∃ c ∈ conditions, c.is_required = true ∧ (c.evaluate f).passed = false := by
  have hchar : (evaluate_conditions f conditions).passed =
      ((evalLoop f conditions).2.1.isEmpty) := rfl
  rw [hchar]
  constructor
  · intro h
    by_contra habs
    push_neg at habs
    have hnil : (evalLoop f conditions).2.1 = [] := by
      rw [evalLoop_blocking_nil_iff]
      intro c hc hreq
      by_contra hnp
      exact absurd (habs c hc hreq) (by simpa using hnp)
    rw [hnil] at h
    simp at h
  · intro ⟨c, hc, hreq, hfail⟩
    by_contra h
    have h' : (evalLoop f conditions).2.1 = [] := by
      cases hl : (evalLoop f conditions).2.1 with
      | nil => rfl
      | cons x xs => rw [hl] at h; exact absurd rfl h
    have := (evalLoop_blocking_nil_iff f conditions).mp h' c hc hreq
    rw [this] at hfail
    cases hfail

theorem weightedNumerator_append (f : HourlyForecast) (l₁ l₂ : List Condition) :
    weightedNumerator f (l₁ ++ l₂) = weightedNumerator f l₁ + weightedNumerator f l₂ := by
  simp [weightedNumerator]

theorem totalWeight_append (l₁ l₂ : List Condition) :
    totalWeight (l₁ ++ l₂) = totalWeight l₁ + totalWeight l₂ := by
  simp [totalWeight]

/-- C8: Raising the `severity_on_fail` of a single required condition
(weights are non-negative by the model's field constraint) never increases
the aggregate score of `evaluate_conditions`. -/
theorem evaluate_conditions_score_antitone_in_severity (f : HourlyForecast)
    (pre post : List Condition) (c : Condition) (sev : ℚ)
    (_hreq : c.is_required = true) (hwnn : 0 ≤ c.weight)
    (hsev : c.severity_on_fail ≤ sev) :
    (evaluate_conditions f (pre ++ { c with severity_on_fail := sev } :: post)).score ≤
      (evaluate_conditions f (pre ++ c :: post)).score := by
  have hpass : (({ c with severity_on_fail := sev } : Condition).evaluate f).passed
      = (c.evaluate f).passed := rfl
  have hcw : ({ c with severity_on_fail := sev } : Condition).weight = c.weight := rfl
  have hcs : ({ c with severity_on_fail := sev } : Condition).severity_on_fail = sev := rfl
  have htw : totalWeight (pre ++ ({ c with severity_on_fail := sev } : Condition) :: post)
      = totalWeight (pre ++ c :: post) := by
    rw [totalWeight_append, totalWeight_append]
    simp [totalWeight]
  have hnum : weightedNumerator f
        (pre ++ ({ c with severity_on_fail := sev } : Condition) :: post) ≤
      weightedNumerator f (pre ++ c :: post) := by
    rw [weightedNumerator_append, weightedNumerator_append]
    have hcons : weightedNumerator f (({ c with severity_on_fail := sev } : Condition) :: post)
        ≤ weightedNumerator f (c :: post) := by
      simp only [weightedNumerator, List.map_cons, List.sum_cons]
      have hcontrib :
          (if (({ c with severity_on_fail := sev } : Condition).evaluate f).passed then
             ({ c with severity_on_fail := sev } : Condition).weight * 100
           else ({ c with severity_on_fail := sev } : Condition).weight *
             max 0 (100 - ({ c with severity_on_fail := sev } : Condition).severity_on_fail * 10)) ≤
          (if (c.evaluate f).passed then c.weight * 100
           else c.weight * max 0 (100 - c.severity_on_fail * 10)) := by
        rw [hpass, hcw, hcs]
        by_cases hp : (c.evaluate f).passed = true
        · simp [hp]
        · have hp' : (c.evaluate f).passed = false := by
            cases hhh : (c.evaluate f).passed
            · rfl
            · exact absurd hhh hp
          rw [hp']
          simp only [Bool.false_eq_true, if_false]
          apply mul_le_mul_of_nonneg_left _ hwnn
          apply max_le_max (le_refl 0)
          linarith
      linarith
    linarith
  rw [evaluate_conditions_score, evaluate_conditions_score, htw]
  by_cases hw : 0 < totalWeight (pre ++ c :: post)
  · rw [if_pos hw, if_pos hw]
    have hmul := mul_le_mul_of_nonneg_right hnum (le_of_lt (inv_pos.mpr hw))
    simpa [div_eq_mul_inv] using hmul
  · simp [hw]

/-- Witness for C8: raising the severity of the failing required sample
condition from 8 to 10 at the sample forecast. -/
theorem evaluate_conditions_score_antitone_in_severity_witness :
    sampleTempCondition.is_required = true ∧ (0 : ℚ) ≤ sampleTempCondition.weight ∧
      sampleTempCondition.severity_on_fail ≤ 10 ∧
      (evaluate_conditions sampleColdForecast
          ([] ++ { sampleTempCondition with severity_on_fail := 10 } :: [])).score ≤
        (evaluate_conditions sampleColdForecast ([] ++ sampleTempCondition :: [])).score :=
  ⟨rfl, by norm_num [sampleTempCondition], by norm_num [sampleTempCondition],
    evaluate_conditions_score_antitone_in_severity sampleColdForecast [] []
      sampleTempCondition 10 rfl (by norm_num [sampleTempCondition])
      (by norm_num [sampleTempCondition])⟩

/-! ## Missing sub-records and malformed comparisons (C3, C10) -/

/-- C3 (counterexample): The claim says a forecast lacking the
precipitation sub-record yields `actual_value = None`; the code's
precipitation extractors instead default to `0`, so the evaluated
precipitation-probability condition on a bare forecast carries
`actual_value = 0`, not `None`. -/
theorem condition_missing_precipitation_not_none :
    ({ type := .precipitation_probability, operator := .lte,
       value := .atom (.num 50) : Condition}.evaluate sampleColdForecast).actual_value
        = some (.num 0) ∧
      (some (Atom.num 0) : Option Atom) ≠ none := by
  constructor
  · rfl
  · simp

/-- C3 (amended): A forecast lacking the wind, cloud-cover or
astronomical sub-record yields `actual_value = None` for the condition types
that read it, while the precipitation condition types extract `0` when the
precipitation sub-record is missing; and a `None` actual value always
yields `passed = false` (the comparator is never invoked on it, so nothing
can raise). -/
theorem condition_missing_subrecord_behaviour (c : Condition) (f : HourlyForecast) :
    ((c.type = .wind_speed ∨ c.type = .wind_gust ∨ c.type = .wind_direction) →
      f.wind = none → c.extractValue f = none) ∧
    ((c.type = .cloud_cover ∨ c.type = .cloud_cover_low ∨ c.type = .cloud_cover_high) →
      f.cloud_cover = none → c.extractValue f = none) ∧
    ((c.type = .sun_altitude ∨ c.type = .moon_altitude ∨ c.type = .moon_illumination ∨
        c.type = .is_night ∨ c.type = .is_astronomical_night) →
      f.astronomical = none → c.extractValue f = none) ∧
    ((c.type = .precipitation_probability ∨ c.type = .precipitation_amount) →
      f.precipitation = none → c.extractValue f = some (.num 0)) ∧
    (c.extractValue f = none → (c.evaluate f).passed = false) := by
  refine ⟨?_, ?_, ?_, ?_, ?_⟩
  · rintro (ht | ht | ht) hw <;> simp [Condition.extractValue, ht, hw]
  · rintro (ht | ht | ht) hcc <;> simp [Condition.extractValue, ht, hcc]
  · rintro (ht | ht | ht | ht | ht) ha <;> simp [Condition.extractValue, ht, ha]
  · rintro (ht | ht) hp <;> simp [Condition.extractValue, ht, hp]
  · intro hx
    simp [Condition.evaluate, hx, pyCompare]

/-- A wind-speed condition used to instantiate the amended C3. -/
def sampleWindCondition : Condition :=
  { type := .wind_speed, operator := .lte, value := .atom (.num 10) }

/-- Witness for the amended C3: on the bare sample forecast (no wind
sub-record) the wind-speed condition extracts `None` and fails. -/
theorem condition_missing_subrecord_behaviour_witness :
    sampleWindCondition.extractValue sampleColdForecast = none ∧
      (sampleWindCondition.evaluate sampleColdForecast).passed = false := by
  have h := condition_missing_subrecord_behaviour sampleWindCondition sampleColdForecast
  have hx : sampleWindCondition.extractValue sampleColdForecast = none :=
    h.1 (Or.inl rfl) rfl
  exact ⟨hx, h.2.2.2.2 hx⟩

/-- C10: `Condition.evaluate` is total by construction in this model
(it returns a `ConditionResult` for every condition and forecast); when the
underlying Python comparator would raise (`TypeError`/`IndexError` on
malformed operands, e.g. a `between` value that is not a two-element pair
or a type-mismatched comparison), the guarded comparison resolves to
`passed = false`. -/
theorem condition_evaluate_malformed_comparison_fails (c : Condition)
    (f : HourlyForecast) (a : Atom) (err : PyErr)
    (hx : c.extractValue f = some a)
    (hraw : pyCompareRaw c.operator a c.value = .error err) :
    (c.evaluate f).passed = false := by
  simp [Condition.evaluate, hx, pyCompare, hraw]

/-- A `between` condition whose comparison value is a one-element list
(not a pair). -/
def sampleBetweenCondition : Condition :=
  { type := .temperature, operator := .between, value := .vlist [.num 1] }

/-- Witness for C10: on the 3 °C forecast, `between [1]` passes the first
chained comparison, subscripting `e[1]` raises `IndexError`, and the
condition resolves to not-passed. -/
theorem condition_evaluate_malformed_comparison_fails_witness :
    pyCompareRaw sampleBetweenCondition.operator (.num 3) sampleBetweenCondition.value
        = .error .indexError ∧
      (sampleBetweenCondition.evaluate sampleColdForecast).passed = false := by
  have h13 : decide ((1 : ℚ) ≤ 3) = true := by
    rw [decide_eq_true_eq]; norm_num
  have hraw : pyCompareRaw sampleBetweenCondition.operator (.num 3)
      sampleBetweenCondition.value = .error .indexError := by
    simp [sampleBetweenCondition, pyCompareRaw, pyBetween, indexVal, atomOrd,
      Atom.toRat, Bind.bind, Except.bind, h13]
  exact ⟨hraw,
    condition_evaluate_malformed_comparison_fails sampleBetweenCondition sampleColdForecast
      (.num 3) .indexError rfl hraw⟩

/-! ## Parameters of the compiled conditions (C4) -/

/-- One per populated optional leaf field. -/
def optCount {α : Type} (o : Option α) : ℕ := if o.isSome then 1 else 0

/-- One per set boolean requirement flag. -/
def flagCount (b : Bool) : ℕ := if b then 1 else 0

/-- The number of populated requirement fields among those
`requirements_to_conditions` translates (temperature min/max/ideal bounds,
wind max speed/gust and ideal speed, cloud max/ideal totals, precipitation
max probability, minimum visibility, the four sun constraints, the two moon
constraints, and max UV). -/
def countPopulated (r : ActivityRequirements) : ℕ :=
  (match r.temperature with
   | none => 0
   | some t => optCount t.min_c + optCount t.max_c +
       optCount t.ideal_min_c + optCount t.ideal_max_c) +
  (match r.wind with
   | none => 0
   | some w => optCount w.max_speed_ms + optCount w.max_gust_ms +
       optCount w.ideal_max_speed_ms) +
  (match r.clouds with
   | none => 0
   | some cl => optCount cl.max_total_percent + optCount cl.ideal_max_total_percent) +
  (match r.precipitation with
   | none => 0
   | some p => optCount p.max_probability_percent) +
  optCount r.min_visibility_m +
  (match r.sun with
   | none => 0
   | some s => flagCount s.require_below_horizon +
       flagCount s.require_astronomical_twilight +
       optCount s.min_altitude_deg + optCount s.max_altitude_deg) +
  (match r.moon with
   | none => 0
   | some m => optCount m.max_illumination_percent + flagCount m.require_below_horizon) +
  optCount r.max_uv_index

/-- Parameters of every hard compiled constraint: full weight, severity
between 5 and 10. -/
def hardParamsOk (c : Condition) : Prop :=
  c.weight = 1 ∧ 5 ≤ c.severity_on_fail ∧ c.severity_on_fail ≤ 10

/-- Parameters of every optional compiled constraint: severity 2 with
weight 1/2 (ideal bounds and moon-below-horizon) or severity 3 with weight
7/10 (moon illumination). -/
def optionalParamsOk (c : Condition) : Prop :=
  (c.severity_on_fail = 2 ∧ c.weight = 1/2) ∨ (c.severity_on_fail = 3 ∧ c.weight = 7/10)

/-- Both parameter facts for one compiled condition. -/
def conditionParamsOk (c : Condition) : Prop :=
  (c.is_required = true → hardParamsOk c) ∧ (c.is_required = false → optionalParamsOk c)

theorem temperatureConditions_spec (t : Option TemperatureRange) :
    (temperatureConditions t).length =
      (match t with
       | none => 0
       | some t => optCount t.min_c + optCount t.max_c +
           optCount t.ideal_min_c + optCount t.ideal_max_c) ∧
    ∀ c ∈ temperatureConditions t, conditionParamsOk c := by
  cases t with
  | none => simp [temperatureConditions]
  | some t =>
    obtain ⟨mn, mx, imn, imx⟩ := t
    cases mn <;> cases mx <;> cases imn <;> cases imx <;>
      simp [temperatureConditions, optCount, conditionParamsOk, hardParamsOk,
        optionalParamsOk] <;> norm_num

theorem windConditions_spec (w : Option WindConstraints) :
    (windConditions w).length =
      (match w with
       | none => 0
       | some w => optCount w.max_speed_ms + optCount w.max_gust_ms +
           optCount w.ideal_max_speed_ms) ∧
    ∀ c ∈ windConditions w, conditionParamsOk c := by
  cases w with
  | none => simp [windConditions]
  | some w =>
    obtain ⟨ms, mg, ims⟩ := w
    cases ms <;> cases mg <;> cases ims <;>
      simp [windConditions, optCount, conditionParamsOk, hardParamsOk,
        optionalParamsOk] <;> norm_num

theorem cloudConditions_spec (cl : Option CloudConstraints) :
    (cloudConditions cl).length =
      (match cl with
       | none => 0
       | some cl => optCount cl.max_total_percent + optCount cl.ideal_max_total_percent) ∧
    ∀ c ∈ cloudConditions cl, conditionParamsOk c := by
  cases cl with
  | none => simp [cloudConditions]
  | some cl =>
    obtain ⟨mt, mh, imt⟩ := cl
    cases mt <;> cases imt <;>
      simp [cloudConditions, optCount, conditionParamsOk, hardParamsOk,
        optionalParamsOk] <;> norm_num

theorem precipitationConditions_spec (p : Option PrecipitationConstraints) :
    (precipitationConditions p).length =
      (match p with
       | none => 0
       | some p => optCount p.max_probability_percent) ∧
    ∀ c ∈ precipitationConditions p, conditionParamsOk c := by
  cases p with
  | none => simp [precipitationConditions]
  | some p =>
    obtain ⟨mp, _, _⟩ := p
    cases mp <;>
      simp [precipitationConditions, optCount, conditionParamsOk, hardParamsOk,
        optionalParamsOk] <;> norm_num

theorem visibilityConditions_spec (v : Option ℚ) :
    (visibilityConditions v).length = optCount v ∧
    ∀ c ∈ visibilityConditions v, conditionParamsOk c := by
  cases v <;>
    simp [visibilityConditions, optCount, conditionParamsOk, hardParamsOk,
      optionalParamsOk] <;> norm_num

theorem sunConditions_spec (s : Option SunConstraints) :
    (sunConditions s).length =
      (match s with
       | none => 0
       | some s => flagCount s.require_below_horizon +
           flagCount s.require_astronomical_twilight +
           optCount s.min_altitude_deg + optCount s.max_altitude_deg) ∧
    ∀ c ∈ sunConditions s, conditionParamsOk c := by
  cases s with
  | none => simp [sunConditions]
  | some s =>
    obtain ⟨mn, mx, bh, at'⟩ := s
    cases mn <;> cases mx <;> cases bh <;> cases at' <;>
      simp [sunConditions, optCount, flagCount, conditionParamsOk, hardParamsOk,
        optionalParamsOk] <;> norm_num

theorem moonConditions_spec (m : Option MoonConstraints) :
    (moonConditions m).length =
      (match m with
       | none => 0
       | some m => optCount m.max_illumination_percent +
           flagCount m.require_below_horizon) ∧
    ∀ c ∈ moonConditions m, conditionParamsOk c := by
  cases m with
  | none => simp [moonConditions]
  | some m =>
    obtain ⟨mi, bh⟩ := m
    cases mi <;> cases bh <;>
      simp [moonConditions, optCount, flagCount, conditionParamsOk, hardParamsOk,
        optionalParamsOk] <;> norm_num

theorem uvConditions_spec (v : Option ℚ) :
    (uvConditions v).length = optCount v ∧
    ∀ c ∈ uvConditions v, conditionParamsOk c := by
  cases v <;>
    simp [uvConditions, optCount, conditionParamsOk, hardParamsOk,
      optionalParamsOk] <;> norm_num

/-- C4 (amended): Each populated requirement field among those the
engine translates yields exactly one Condition, and every compiled
condition has the fixed parameters: hard constraints are required with
weight 1 and severity in [5, 10] (8 for temperature and cloud bounds, 7 for
wind, 6 for precipitation and UV, 5 for visibility, 10 for sun
constraints); optional constraints carry severity 2 and weight 1/2, except
moon illumination with severity 3 and weight 7/10. -/
theorem requirements_to_conditions_field_map_and_params (r : ActivityRequirements) :
    (requirements_to_conditions r).length = countPopulated r ∧
    ∀ c ∈ requirements_to_conditions r, conditionParamsOk c := by
  constructor
  · simp only [requirements_to_conditions, List.length_append, countPopulated]
    rw [(temperatureConditions_spec r.temperature).1,
      (windConditions_spec r.wind).1,
      (cloudConditions_spec r.clouds).1,
      (precipitationConditions_spec r.precipitation).1,
      (visibilityConditions_spec r.min_visibility_m).1,
      (sunConditions_spec r.sun).1,
      (moonConditions_spec r.moon).1,
      (uvConditions_spec r.max_uv_index).1]
  · intro c hc
    simp only [requirements_to_conditions, List.mem_append] at hc
    rcases hc with ((((((h | h) | h) | h) | h) | h) | h) | h
    · exact (temperatureConditions_spec r.temperature).2 c h
    · exact (windConditions_spec r.wind).2 c h
    · exact (cloudConditions_spec r.clouds).2 c h
    · exact (precipitationConditions_spec r.precipitation).2 c h
    · exact (visibilityConditions_spec r.min_visibility_m).2 c h
    · exact (sunConditions_spec r.sun).2 c h
    · exact (moonConditions_spec r.moon).2 c h
    · exact (uvConditions_spec r.max_uv_index).2 c h

/-- Requirements exercising the three ways C4's literal reading fails:
a populated `max_high_percent` (translated to no condition), a hard
precipitation bound (severity 6, outside 7-8), and a moon-illumination
constraint (optional with severity 3 and weight 7/10, not 2 and 0.5). -/
def mismatchRequirements : ActivityRequirements :=
  { clouds := some { max_high_percent := some 50 },
    precipitation := some { max_probability_percent := some 40 },
    moon := some { max_illumination_percent := some 60 } }

/-- C4 (counterexample): On `mismatchRequirements` the engine produces
two conditions for three populated fields; the hard precipitation condition
has severity 6, not in 7-8; and the optional moon-illumination condition
has severity 3 and weight 7/10, not severity 2 and weight 0.5. -/
theorem requirements_to_conditions_params_counterexample :
    requirements_to_conditions mismatchRequirements =
      [ { type := .precipitation_probability, operator := .lte, value := .atom (.num 40),
          is_required := true, weight := 1, severity_on_fail := 6 },
        { type := .moon_illumination, operator := .lte, value := .atom (.num 60),
          is_required := false, weight := 7/10, severity_on_fail := 3 } ] ∧
    ¬ (7 ≤ (6 : ℚ) ∧ (6 : ℚ) ≤ 8) ∧ (3 : ℚ) ≠ 2 ∧ (7/10 : ℚ) ≠ 1/2 := by
  refine ⟨rfl, ?_, ?_, ?_⟩ <;> norm_num

/-! ## Go/No-Go scoring and decision rule (C2, C9) -/

/-- Sum of the weight-class integer values of all factors. -/
def goNoGoTotalWeight (factors : List WeightedFactor) : ℚ :=
  (factors.map (·.weight.value)).sum

/-- Sum of the weight-class values of the factors that pass against the
extracted values. -/
def goNoGoPassedWeight (values : List (String × Option ℚ))
    (factors : List WeightedFactor) : ℚ :=
  (factors.map fun fa =>
    if (fa.evaluate (valuesGet values fa.name)).1 then fa.weight.value else 0).sum

/-- The score formula asserted by the specification, following its wording:
each passing factor contributes `weight * 100`, each failing factor
contributes `weight * max 0 (100 - severity * 10)` for a per-factor
numeric severity assignment, and the total is divided by the sum of the
weights. -/
def specPartialCreditScore (values : List (String × Option ℚ))
    (severity : String → ℚ) (factors : List WeightedFactor) : ℚ :=
  (factors.map fun fa =>
    if (fa.evaluate (valuesGet values fa.name)).1 then fa.weight.value * 100
    else fa.weight.value * max 0 (100 - severity fa.name * 10)).sum /
  goNoGoTotalWeight factors

theorem goNoGoLoop_totalWeight (values : List (String × Option ℚ)) :
    ∀ factors : List WeightedFactor,
      (goNoGoLoop values factors).1 = goNoGoTotalWeight factors := by
  intro factors
  induction factors with
  | nil => simp [goNoGoLoop, goNoGoTotalWeight]
  | cons fa rest ih =>
    simp [goNoGoLoop, goNoGoTotalWeight] at ih ⊢
    rw [ih]

theorem goNoGoLoop_weightedScore (values : List (String × Option ℚ)) :
    ∀ factors : List WeightedFactor,
      (goNoGoLoop values factors).2.1 = 100 * goNoGoPassedWeight values factors := by
  intro factors
  induction factors with
  | nil => simp [goNoGoLoop, goNoGoPassedWeight]
  | cons fa rest ih =>
    by_cases hp : (fa.evaluate (valuesGet values fa.name)).1 = true
    · simp only [goNoGoLoop, goNoGoPassedWeight, List.map_cons, List.sum_cons, hp,
        if_true]
      simp only [goNoGoPassedWeight] at ih
      rw [ih]
      ring
    · have hp' : (fa.evaluate (valuesGet values fa.name)).1 = false := by
        cases hhh : (fa.evaluate (valuesGet values fa.name)).1
        · rfl
        · exact absurd hhh hp
      simp only [goNoGoLoop, goNoGoPassedWeight, List.map_cons, List.sum_cons, hp',
        Bool.false_eq_true, if_false]
      simp only [goNoGoPassedWeight] at ih
      rw [ih]
      ring

/-- C2 (amended): `GoNoGoEvaluator.evaluate` gives a failed factor no
partial credit at all: its score is `100` times the passed-weight fraction
(using the weight-class integer values directly as weights), and `0` when
the factor list is empty. -/
theorem go_no_go_score_no_partial_credit (values : List (String × Option ℚ))
    (factors : List WeightedFactor) (f : HourlyForecast) :
    (goNoGoEvaluateWith values factors).score =
      (if 0 < goNoGoTotalWeight factors then
        100 * goNoGoPassedWeight values factors / goNoGoTotalWeight factors
      else 0) ∧
    (GoNoGoEvaluator.evaluate factors f).score =
      (if 0 < goNoGoTotalWeight factors then
        100 * goNoGoPassedWeight (extractValuesBase f) factors / goNoGoTotalWeight factors
      else 0) := by
  constructor
  · simp [goNoGoEvaluateWith, goNoGoLoop_totalWeight, goNoGoLoop_weightedScore]
  · simp [GoNoGoEvaluator.evaluate, goNoGoEvaluateWith, goNoGoLoop_totalWeight,
      goNoGoLoop_weightedScore]

/-- A failing non-blocking HIGH factor: wind limited to 8 m/s. -/
def gnWindFactor : WeightedFactor :=
  { name := "wind_speed", display_name := "Wind Speed", weight := .high,
    threshold := some 8, threshold_type := "max" }

/-- A passing MEDIUM factor: temperature at least -10 °C. -/
def gnTempFactor : WeightedFactor :=
  { name := "temperature", display_name := "Temperature", weight := .medium,
    threshold := some (-10), threshold_type := "min" }

/-- A forecast whose wind (10 m/s) fails `gnWindFactor` while its
temperature (10 °C) passes `gnTempFactor`. -/
def gnForecast : HourlyForecast :=
  { time := 0, temperature_c := 10, wind := some { speed_ms := 10 } }

/-- C2 (counterexample): With one failed HIGH (weight 7, non-blocking)
factor and one passed MEDIUM (weight 5) factor, the code scores
`500/12 = 125/3`; the specification's partial-credit formula — which at its
own illustrative severity 5 has the failed factor contribute
`7 * 50 = 350` — instead gives `850/12 = 425/6`.  The two disagree, so
`GoNoGoEvaluator.evaluate` does not use the Rule Engine's partial-credit
formula. -/
theorem go_no_go_score_counterexample :
    (GoNoGoEvaluator.evaluate [gnWindFactor, gnTempFactor] gnForecast).score = 125/3 ∧
    specPartialCreditScore (extractValuesBase gnForecast) (fun _ => 5)
        [gnWindFactor, gnTempFactor] = 425/6 ∧
    (125/3 : ℚ) ≠ 425/6 := by
  refine ⟨?_, ?_, by norm_num⟩
  · with_unfolding_all decide
  · with_unfolding_all decide

/-- The scenario forecast of the specification: 5 % cloud, 0 %
precipitation probability, 2 m/s wind, sun at -25°; the unconstrained
temperature field is set to 10 °C. -/
def scenarioForecast : HourlyForecast :=
  { time := 0, temperature_c := 10,
    cloud_cover := some { total_percent := 5 },
    precipitation := some { probability_percent := 0 },
    wind := some { speed_ms := 2 },
    astronomical := some { sun_altitude_deg := some (-25) } }

/-- C9: The decision rule of `GoNoGoEvaluator.evaluate`: any blocking
failure forces NO_GO regardless of the score; otherwise GO at score ≥ 70,
MARGINAL at 50 ≤ score < 70, NO_GO below 50.  Concretely,
`AstronomyGoNoGoEvaluator(max_cloud_cover=3)` on the scenario forecast is
NO_GO with "Cloud Cover" blocking, while `max_cloud_cover=30` on the same
forecast is GO. -/
theorem go_no_go_decision_rule (factors : List WeightedFactor) (f : HourlyForecast) :
    ((GoNoGoEvaluator.evaluate factors f).decision =
      if (GoNoGoEvaluator.evaluate factors f).blocking_factors.isEmpty then
        (if 70 ≤ (GoNoGoEvaluator.evaluate factors f).score then "GO"
         else if 50 ≤ (GoNoGoEvaluator.evaluate factors f).score then "MARGINAL"
         else "NO_GO")
      else "NO_GO") ∧
    (AstronomyGoNoGoEvaluator.evaluate scenarioForecast 3).decision = "NO_GO" ∧
    "Cloud Cover" ∈ (AstronomyGoNoGoEvaluator.evaluate scenarioForecast 3).blocking_factors ∧
    (AstronomyGoNoGoEvaluator.evaluate scenarioForecast 30).decision = "GO" := by
  refine ⟨?_, ?_, ?_, ?_⟩
  · simp only [GoNoGoEvaluator.evaluate, goNoGoEvaluateWith]
    by_cases hb : (goNoGoLoop (extractValuesBase f) factors).2.2.isEmpty
    · simp [hb]
    · have hb' : (goNoGoLoop (extractValuesBase f) factors).2.2.isEmpty = false := by
        cases hhh : (goNoGoLoop (extractValuesBase f) factors).2.2.isEmpty
        · rfl
        · exact absurd hhh hb
      simp [hb']
  · with_unfolding_all decide
  · with_unfolding_all decide
  · with_unfolding_all decide

/-! ## Gear selection semantics (C7) -/

/-- The selection policy exactly as the specification words it: walking the
priority-sorted matching rules in order, a rule flagged exclusive is kept
only when it would be the first kept rule in its gear category (no earlier
kept rule, exclusive or not, occupies the category); a non-exclusive rule
is always kept. -/
def claimKeep (kept : List GearRule) : List GearRule → List GearRule
  | [] => []
  | r :: rest =>
    if r.exclusive && kept.any (fun k => k.item.category == r.item.category) then
      claimKeep kept rest
    else
      r :: claimKeep (kept ++ [r]) rest

theorem contains_addCategory (used : List String) (cat x : String) :
    (addCategory used cat).contains x = ((used.contains x) || (cat == x)) := by
  rw [addCategory]
  by_cases h : used.contains cat = true
  · rw [if_pos h]
    by_cases hcx : cat = x
    · subst hcx
      rw [h]
      simp
    · have hb : (cat == x) = false := by simp [hcx]
      rw [hb, Bool.or_false]
  · rw [if_neg h]
    rw [List.contains_cons]
    by_cases hcx : cat = x
    · subst hcx
      simp
    · have hb : (cat == x) = false := by simp [hcx]
      have hb2 : (x == cat) = false := by simp [Ne.symm hcx]
      rw [hb, hb2, Bool.or_false, Bool.false_or]

theorem mem_insertByPriority (r : GearRule) :
    ∀ (l : List GearRule) (x : GearRule), x ∈ insertByPriority r l ↔ x = r ∨ x ∈ l := by
  intro l
  induction l with
  | nil => intro x; simp [insertByPriority]
  | cons s rest ih =>
    intro x
    rw [insertByPriority]
    by_cases h : r.priority ≤ s.priority
    · rw [if_pos h]
      simp [List.mem_cons]
    · rw [if_neg h]
      simp only [List.mem_cons, ih]
      tauto

theorem insertByPriority_pairwise (r : GearRule) :
    ∀ l : List GearRule, l.Pairwise (fun a b => a.priority ≤ b.priority) →
      (insertByPriority r l).Pairwise (fun a b => a.priority ≤ b.priority) := by
  intro l
  induction l with
  | nil => intro _; simp [insertByPriority]
  | cons s rest ih =>
    intro h
    rw [List.pairwise_cons] at h
    rw [insertByPriority]
    by_cases hle : r.priority ≤ s.priority
    · rw [if_pos hle]
      rw [List.pairwise_cons]
      constructor
      · intro x hx
        rcases List.mem_cons.mp hx with rfl | hx
        · exact hle
        · exact le_trans hle (h.1 x hx)
      · rw [List.pairwise_cons]
        exact h
    · rw [if_neg hle]
      rw [List.pairwise_cons]
      constructor
      · intro x hx
        rcases (mem_insertByPriority r rest x).mp hx with rfl | hx
        · exact le_of_lt (lt_of_not_le hle)
        · exact h.1 x hx
      · exact ih h.2

theorem sortByPriority_pairwise :
    ∀ l : List GearRule,
      (sortByPriority l).Pairwise (fun a b => a.priority ≤ b.priority) := by
  intro l
  induction l with
  | nil => simp [sortByPriority]
  | cons r rest ih => exact insertByPriority_pairwise r _ ih

theorem selectGear_eq_claimKeep :
    ∀ (rules : List GearRule) (used : List String) (kept : List GearRule),
      (∀ cat : String, used.contains cat = kept.any fun k => k.item.category == cat) →
      selectGear used rules = (claimKeep kept rules).map (·.item) := by
  intro rules
  induction rules with
  | nil => intro used kept _; simp [selectGear, claimKeep]
  | cons r rest ih =>
    intro used kept hinv
    simp only [selectGear, claimKeep, hinv r.item.category]
    by_cases hskip :
        (r.exclusive && kept.any fun k => k.item.category == r.item.category) = true
    · rw [if_pos hskip, if_pos hskip]
      exact ih used kept hinv
    · rw [if_neg hskip, if_neg hskip]
      rw [List.map_cons]
      congr 1
      apply ih
      intro cat
      rw [contains_addCategory, hinv cat, List.any_append]
      simp

/-- C7: `GearRecommender.recommend` selects exactly the items of the
claim's greedy policy: filter the rules matching the forecast, sort them
ascending by priority (stably, so a lower priority number wins ties), then
keep a rule unless it is exclusive and an earlier kept rule already
occupies its gear category; and the sorted matching list is indeed
priority-ascending. -/
theorem gear_recommend_greedy_exclusive (rules : List GearRule) (forecast : HourlyForecast) :
    (GearRecommender.recommend rules forecast).items =
      (claimKeep [] (sortByPriority (rules.filter fun r => r.matches forecast))).map
        (·.item) ∧
    (sortByPriority (rules.filter fun r => r.matches forecast)).Pairwise
      (fun a b => a.priority ≤ b.priority) := by
  constructor
  · rw [GearRecommender.recommend]
    exact selectGear_eq_claimKeep _ [] [] (fun cat => rfl)
  · exact sortByPriority_pairwise _

/-! ## Time-slot properties (C6) -/

/-- The forecast hours are consecutive: each timestamp is one hour after
the previous one (the canonical hourly-forecast input shape). -/
def consecutiveHours : List HourlyForecast → Bool
  | [] => true
  | [_] => true
  | a :: b :: rest => decide (b.time = a.time + 1) && consecutiveHours (b :: rest)

/-- Model of `consecutiveHours` on hour/evaluation pairs. -/
def consecPairs : List HourEval → Bool
  | [] => true
  | [_] => true
  | a :: b :: rest => decide (b.1.time = a.1.time + 1) && consecPairs (b :: rest)

theorem consecPairs_tail (x : HourEval) (l : List HourEval)
    (h : consecPairs (x :: l) = true) : consecPairs l = true := by
  cases l with
  | nil => rfl
  | cons y rest =>
    rw [consecPairs, Bool.and_eq_true] at h
    exact h.2

theorem consecPairs_map (g : HourlyForecast → EvaluationResult) :
    ∀ l : List HourlyForecast, consecutiveHours l = true →
      consecPairs (l.map fun h => (h, g h)) = true := by
  intro l
  induction l with
  | nil => intro _; rfl
  | cons a rest ih =>
    intro h
    cases rest with
    | nil => rfl
    | cons b rest' =>
      rw [consecutiveHours, Bool.and_eq_true] at h
      obtain ⟨h1, h2⟩ := h
      rw [List.map_cons, List.map_cons, consecPairs]
      rw [Bool.and_eq_true]
      refine ⟨h1, ?_⟩
      have := ih h2
      rwa [List.map_cons] at this

theorem consecPairs_takeWhile (p : HourEval → Bool) :
    ∀ l : List HourEval, consecPairs l = true →
      consecPairs (l.takeWhile p) = true := by
  intro l
  induction l with
  | nil => intro _; rfl
  | cons a rest ih =>
    intro h
    rw [List.takeWhile_cons]
    by_cases hpa : p a = true
    · rw [if_pos hpa]
      cases rest with
      | nil => rfl
      | cons b rest' =>
        rw [consecPairs, Bool.and_eq_true] at h
        obtain ⟨h1, h2⟩ := h
        rw [List.takeWhile_cons]
        by_cases hpb : p b = true
        · rw [if_pos hpb]
          rw [consecPairs, Bool.and_eq_true]
          refine ⟨h1, ?_⟩
          have := ih h2
          rw [List.takeWhile_cons, if_pos hpb] at this
          exact this
        · rw [if_neg hpb]
          rfl
    · rw [if_neg hpa]
      rfl

theorem consecPairs_dropWhile (p : HourEval → Bool) :
    ∀ l : List HourEval, consecPairs l = true →
      consecPairs (l.dropWhile p) = true := by
  intro l
  induction l with
  | nil => intro _; rfl
  | cons a rest ih =>
    intro h
    rw [List.dropWhile_cons]
    by_cases hpa : p a = true
    · rw [if_pos hpa]
      exact ih (consecPairs_tail a rest h)
    · rw [if_neg hpa]
      exact h

theorem consecPairs_of_mem_contiguousRuns (p : HourEval → Bool) :
    ∀ (n : ℕ) (l : List HourEval), l.length ≤ n → consecPairs l = true →
      ∀ run ∈ contiguousRuns p l, consecPairs run = true ∧ run ≠ [] := by
  intro n
  induction n with
  | zero =>
    intro l hl _ run hr
    rw [List.length_eq_zero.mp (Nat.le_zero.mp hl)] at hr
    simp [contiguousRuns] at hr
  | succ n ih =>
    intro l hl hc run hr
    cases l with
    | nil => simp [contiguousRuns] at hr
    | cons x rest =>
      rw [contiguousRuns] at hr
      by_cases hx : p x = true
      · rw [if_pos hx] at hr
        rcases List.mem_cons.mp hr with rfl | hr
        · constructor
          · have := consecPairs_takeWhile p (x :: rest) hc
            rwa [List.takeWhile_cons, if_pos hx] at this
          · exact List.cons_ne_nil _ _
        · refine ih (rest.dropWhile p) ?_ ?_ run hr
          · exact le_trans (dropWhile_length_le p rest)
              (Nat.le_of_succ_le_succ hl)
          · exact consecPairs_dropWhile p rest (consecPairs_tail x rest hc)
      · rw [if_neg hx] at hr
        exact ih rest (Nat.le_of_succ_le_succ hl) (consecPairs_tail x rest hc) run hr

theorem consec_run_duration :
    ∀ (rest : List HourEval) (x : HourEval),
      consecPairs (x :: rest) = true →
      ((x :: rest).getLast (List.cons_ne_nil x rest)).1.time + 1 - x.1.time
        = ((x :: rest).length : ℚ) := by
  intro rest
  induction rest with
  | nil =>
    intro x _
    simp
  | cons b rest' ih =>
    intro x h
    rw [consecPairs, Bool.and_eq_true] at h
    obtain ⟨h1, h2⟩ := h
    have hb := ih b h2
    have hlast : ((x :: b :: rest').getLast (List.cons_ne_nil x (b :: rest')))
        = ((b :: rest').getLast (List.cons_ne_nil b rest')) := by
      exact (List.getLast_cons (List.cons_ne_nil b rest'))
    rw [hlast]
    have ht : b.1.time = x.1.time + 1 := of_decide_eq_true h1
    rw [List.length_cons]
    push_cast
    rw [ht] at hb
    push_cast at hb
    linarith

/-- Score-descending adjacency: each slot's score is at least the next
one's. -/
def slotsSortedDesc : List TimeSlot → Bool
  | [] => true
  | [_] => true
  | a :: b :: rest => decide (b.score ≤ a.score) && slotsSortedDesc (b :: rest)

/-- Every returned slot spans at least `m` hours. -/
def slotsDurationsAtLeast (m : ℚ) (slots : List TimeSlot) : Bool :=
  slots.all fun s => decide (m ≤ s.stop - s.start)

/-- How many returned slots are flagged optimal. -/
def optimalCount (slots : List TimeSlot) : ℕ :=
  slots.countP (·.is_optimal)

theorem scoreCandidate_is_optimal (preferred : ℚ) :
    ∀ run : List HourEval, (scoreCandidate preferred run).is_optimal = false := by
  intro run
  cases run with
  | nil => rfl
  | cons x rest => rfl

theorem scoreCandidate_duration (preferred : ℚ) (run : List HourEval)
    (hne : run ≠ []) (hc : consecPairs run = true) :
    (scoreCandidate preferred run).stop - (scoreCandidate preferred run).start
      = (run.length : ℚ) := by
  cases run with
  | nil => exact absurd rfl hne
  | cons x rest =>
    have := consec_run_duration rest x hc
    simpa [scoreCandidate] using this

theorem mem_insertByScoreDesc (s : TimeSlot) :
    ∀ (l : List TimeSlot) (x : TimeSlot),
      x ∈ insertByScoreDesc s l ↔ x = s ∨ x ∈ l := by
  intro l
  induction l with
  | nil => intro x; simp [insertByScoreDesc]
  | cons t rest ih =>
    intro x
    rw [insertByScoreDesc]
    by_cases h : t.score < s.score
    · rw [if_pos h]
      simp [List.mem_cons]
    · rw [if_neg h]
      simp only [List.mem_cons, ih]
      tauto

theorem mem_sortByScoreDesc :
    ∀ (l : List TimeSlot) (x : TimeSlot), x ∈ sortByScoreDesc l ↔ x ∈ l := by
  intro l
  induction l with
  | nil => intro x; simp [sortByScoreDesc]
  | cons s rest ih =>
    intro x
    rw [sortByScoreDesc, mem_insertByScoreDesc]
    simp only [List.mem_cons, ih]

theorem slotsSortedDesc_insert (s : TimeSlot) :
    ∀ l : List TimeSlot, slotsSortedDesc l = true →
      slotsSortedDesc (insertByScoreDesc s l) = true := by
  intro l
  induction l with
  | nil => intro _; rfl
  | cons t rest ih =>
    intro h
    rw [insertByScoreDesc]
    by_cases hts : t.score < s.score
    · rw [if_pos hts]
      rw [slotsSortedDesc, Bool.and_eq_true]
      exact ⟨decide_eq_true (le_of_lt hts), h⟩
    · rw [if_neg hts]
      cases rest with
      | nil =>
        rw [show insertByScoreDesc s [] = [s] from rfl]
        rw [slotsSortedDesc, Bool.and_eq_true]
        exact ⟨decide_eq_true (le_of_not_lt hts), rfl⟩
      | cons u rest' =>
        rw [slotsSortedDesc, Bool.and_eq_true] at h
        obtain ⟨h1, h2⟩ := h
        rw [insertByScoreDesc]
        by_cases hus : u.score < s.score
        · rw [if_pos hus]
          rw [slotsSortedDesc, Bool.and_eq_true]
          refine ⟨decide_eq_true (le_of_not_lt hts), ?_⟩
          rw [slotsSortedDesc, Bool.and_eq_true]
          exact ⟨decide_eq_true (le_of_lt hus), h2⟩
        · rw [if_neg hus]
          have := ih h2
          rw [insertByScoreDesc, if_neg hus] at this
          rw [slotsSortedDesc, Bool.and_eq_true]
          exact ⟨h1, this⟩

theorem slotsSortedDesc_sort :
    ∀ l : List TimeSlot, slotsSortedDesc (sortByScoreDesc l) = true := by
  intro l
  induction l with
  | nil => rfl
  | cons s rest ih => exact slotsSortedDesc_insert s _ ih

theorem slotsSortedDesc_tail (a : TimeSlot) (l : List TimeSlot)
    (h : slotsSortedDesc (a :: l) = true) : slotsSortedDesc l = true := by
  cases l with
  | nil => rfl
  | cons b rest =>
    rw [slotsSortedDesc, Bool.and_eq_true] at h
    exact h.2

theorem slotsSortedDesc_take :
    ∀ (l : List TimeSlot) (n : ℕ), slotsSortedDesc l = true →
      slotsSortedDesc (l.take n) = true := by
  intro l
  induction l with
  | nil => intro n _; simp [List.take_nil]; rfl
  | cons a rest ih =>
    intro n h
    cases n with
    | zero => rfl
    | succ m =>
      rw [List.take_succ_cons]
      cases rest with
      | nil => simp [List.take_nil]; cases m <;> rfl
      | cons b rest' =>
        rw [slotsSortedDesc, Bool.and_eq_true] at h
        obtain ⟨h1, h2⟩ := h
        cases m with
        | zero => rfl
        | succ k =>
          rw [List.take_succ_cons]
          rw [slotsSortedDesc, Bool.and_eq_true]
          refine ⟨h1, ?_⟩
          have := ih (k + 1) h2
          rwa [List.take_succ_cons] at this

theorem markFirstOptimal_mem (l : List TimeSlot) (x : TimeSlot)
    (hx : x ∈ markFirstOptimal l) :
    ∃ u ∈ l, x.start = u.start ∧ x.stop = u.stop ∧ x.score = u.score := by
  cases l with
  | nil => simp [markFirstOptimal] at hx
  | cons s rest =>
    rw [markFirstOptimal] at hx
    rcases List.mem_cons.mp hx with rfl | hx
    · exact ⟨s, List.mem_cons_self s rest, rfl, rfl, rfl⟩
    · exact ⟨x, List.mem_cons_of_mem s hx, rfl, rfl, rfl⟩

theorem markFirstOptimal_sorted (l : List TimeSlot)
    (h : slotsSortedDesc l = true) :
    slotsSortedDesc (markFirstOptimal l) = true := by
  cases l with
  | nil => rfl
  | cons s rest =>
    rw [markFirstOptimal]
    cases rest with
    | nil => rfl
    | cons b rest' =>
      rw [slotsSortedDesc, Bool.and_eq_true] at h ⊢
      exact h

theorem optimalCount_markFirstOptimal (l : List TimeSlot)
    (h : ∀ x ∈ l, x.is_optimal = false) :
    optimalCount (markFirstOptimal l) ≤ 1 := by
  cases l with
  | nil => simp [markFirstOptimal, optimalCount]
  | cons s rest =>
    rw [markFirstOptimal, optimalCount, List.countP_cons]
    have hrest : rest.countP (·.is_optimal) = 0 := by
      rw [List.countP_eq_zero]
      intro x hx
      simp [h x (List.mem_cons_of_mem s hx)]
    simp [hrest]

theorem slots_pipeline_props (pairs : List HourEval) (md pd : ℚ) (ms : ℕ)
    (rp : Bool) (hpc : consecPairs pairs = true) :
    slotsDurationsAtLeast ((pyInt md : ℤ) : ℚ)
        (markFirstOptimal ((sortByScoreDesc
          ((findContiguousSlots pairs md rp).map (scoreCandidate pd))).take ms)) = true ∧
    slotsSortedDesc (markFirstOptimal ((sortByScoreDesc
        ((findContiguousSlots pairs md rp).map (scoreCandidate pd))).take ms)) = true ∧
    optimalCount (markFirstOptimal ((sortByScoreDesc
        ((findContiguousSlots pairs md rp).map (scoreCandidate pd))).take ms)) ≤ 1 := by
  have hmem : ∀ x ∈ (sortByScoreDesc
      ((findContiguousSlots pairs md rp).map (scoreCandidate pd))).take ms,
      ∃ run, run ∈ findContiguousSlots pairs md rp ∧ x = scoreCandidate pd run := by
    intro x hx
    have hx1 : x ∈ sortByScoreDesc
        ((findContiguousSlots pairs md rp).map (scoreCandidate pd)) :=
      List.mem_of_mem_take hx
    have hx2 : x ∈ (findContiguousSlots pairs md rp).map (scoreCandidate pd) :=
      (mem_sortByScoreDesc _ x).mp hx1
    obtain ⟨run, hrun, hxe⟩ := List.mem_map.mp hx2
    exact ⟨run, hrun, hxe.symm⟩
  refine ⟨?_, ?_, ?_⟩
  · rw [slotsDurationsAtLeast, List.all_eq_true]
    intro s hs
    obtain ⟨u, hu, hst, hsp, _⟩ := markFirstOptimal_mem _ s hs
    obtain ⟨run, hrun, hue⟩ := hmem u hu
    rw [findContiguousSlots, List.mem_filter] at hrun
    obtain ⟨hrun_mem, hlen⟩ := hrun
    obtain ⟨hconsec, hne⟩ := consecPairs_of_mem_contiguousRuns _ pairs.length pairs
      (le_refl _) hpc run hrun_mem
    have hdur := scoreCandidate_duration pd run hne hconsec
    have hlen' : pyInt md ≤ (run.length : ℤ) := of_decide_eq_true hlen
    rw [decide_eq_true_eq, hst, hsp, hue, hdur]
    exact_mod_cast hlen'
  · exact markFirstOptimal_sorted _ (slotsSortedDesc_take _ ms (slotsSortedDesc_sort _))
  · apply optimalCount_markFirstOptimal
    intro x hx
    obtain ⟨run, _, hxe⟩ := hmem x hx
    rw [hxe]
    exact scoreCandidate_is_optimal pd run

/-- C6 (amended): For hourly forecasts with consecutive hourly
timestamps, every slot returned by `find_slots` spans at least
`int(min_duration in hours)` whole hours (the minimum-duration test
truncates `min_duration` to whole hours, so `duration >= min_duration`
itself holds exactly when `min_duration` is a whole number of hours); the
returned slots are sorted by score in descending order; and at most one
returned slot has `is_optimal = true`. -/
theorem find_slots_duration_sorted_optimal (forecast : Forecast) (activity : Activity)
    (min_duration preferred_duration : ℚ) (max_slots : ℕ) (require_passing : Bool)
    (hc : consecutiveHours forecast.hourly = true) :
    slotsDurationsAtLeast ((pyInt min_duration : ℤ) : ℚ)
        (find_slots forecast activity min_duration preferred_duration max_slots
          require_passing).slots = true ∧
    slotsSortedDesc (find_slots forecast activity min_duration preferred_duration
        max_slots require_passing).slots = true ∧
    optimalCount (find_slots forecast activity min_duration preferred_duration
        max_slots require_passing).slots ≤ 1 := by
  by_cases h0 : forecast.hourly.isEmpty = true
  · have hslots : (find_slots forecast activity min_duration preferred_duration
        max_slots require_passing).slots = [] := by
      rw [find_slots, if_pos h0]
    rw [hslots]
    exact ⟨rfl, rfl, by simp [optimalCount]⟩
  · by_cases hcand : (findContiguousSlots
        (forecast.hourly.map fun h => (h, RuleEngine.new.evaluate_forecast h activity))
        min_duration require_passing).isEmpty = true
    · have hslots : (find_slots forecast activity min_duration preferred_duration
          max_slots require_passing).slots = [] := by
        rw [find_slots, if_neg h0, if_pos hcand]
      rw [hslots]
      exact ⟨rfl, rfl, by simp [optimalCount]⟩
    · have hslots : (find_slots forecast activity min_duration preferred_duration
          max_slots require_passing).slots =
          markFirstOptimal ((sortByScoreDesc
            ((findContiguousSlots
              (forecast.hourly.map fun h =>
                (h, RuleEngine.new.evaluate_forecast h activity))
              min_duration require_passing).map
                (scoreCandidate preferred_duration))).take max_slots) := by
        rw [find_slots, if_neg h0, if_neg hcand]
      rw [hslots]
      exact slots_pipeline_props _ min_duration preferred_duration max_slots
        require_passing (consecPairs_map _ forecast.hourly hc)

/-- A one-hour forecast at hour 0 (3 °C, no optional sub-records). -/
def oneHourForecast : Forecast := { hourly := [sampleColdForecast] }

/-- An activity with no requirements: every hour passes vacuously. -/
def unconstrainedActivity : Activity := { id := "any", name := "Any" }

/-- C6 (counterexample): With `min_duration` of 1.5 hours on a
one-hour forecast whose single hour passes, `find_slots` still returns the
one-hour slot (the minimum-duration check truncates 1.5 hours to 1 hour),
so a returned slot's duration can be strictly below `min_duration`. -/
theorem find_slots_min_duration_counterexample :
    (find_slots oneHourForecast unconstrainedActivity (3/2) 1 5 true).slots =
      [{ start := 0, stop := 1, score := 100, is_optimal := true }] ∧
    ¬ ((3/2 : ℚ) ≤ 1 - 0) := by
  constructor
  · with_unfolding_all decide
  · norm_num

/-- A three-hour forecast with consecutive hours. -/
def threeHourForecast : Forecast :=
  { hourly := [ { time := 0, temperature_c := 3 },
                { time := 1, temperature_c := 4 },
                { time := 2, temperature_c := 5 } ] }

/-- Witness for the amended C6 at a concrete consecutive three-hour
forecast. -/
theorem find_slots_duration_sorted_optimal_witness :
    consecutiveHours threeHourForecast.hourly = true ∧
      (slotsDurationsAtLeast ((pyInt 2 : ℤ) : ℚ)
          (find_slots threeHourForecast unconstrainedActivity 2 2 5 true).slots = true ∧
        slotsSortedDesc
          (find_slots threeHourForecast unconstrainedActivity 2 2 5 true).slots = true ∧
        optimalCount
          (find_slots threeHourForecast unconstrainedActivity 2 2 5 true).slots ≤ 1) :=
  ⟨by with_unfolding_all decide,
    find_slots_duration_sorted_optimal threeHourForecast unconstrainedActivity 2 2 5 true
      (by with_unfolding_all decide)⟩

end WeatherEvents
